import Mathlib

/-!
Shallow embedding of `homework.py`, a Telegram bot that polls the Practicum
homework-status API. Dynamic Python values are modelled by the `JValue`
inductive type, exceptions by the `PyError` inductive type, and fallible
functions return `Except PyError _`. The polling loop of `main` is modelled
as a pure step function on an explicit `PollState`, with the per-iteration
external world (the HTTP answer and the wall clock) passed in as an
`IterEnv`. Telegram `send_message` is an opaque fire-and-forget capability;
the outbound messages of an iteration are collected in a list, in send order.
-/

namespace HomeworkBot

/-- A Python/JSON value: `None`, booleans, integers, strings, lists, dicts.
A dict is modelled as an association list (Python dict keys are unique;
lookup takes the first binding). -/
inductive JValue where
  | jNull : JValue
  | jBool : Bool → JValue
  | jNum : Int → JValue
  | jStr : String → JValue
  | jArr : List JValue → JValue
  | jObj : List (String × JValue) → JValue

/-- Python truthiness: `None`, `False`, `0`, `""`, `[]`, `{}` are falsy. -/
def pyTruthy : JValue → Bool
  | .jNull => false
  | .jBool b => b
  | .jNum n => n != 0
  | .jStr s => s != ""
  | .jArr xs => !xs.isEmpty
  | .jObj fs => !fs.isEmpty

mutual

/-- Python `str()` of a value, as used by f-string interpolation.
Scalars follow Python exactly; containers use the Python repr-based
rendering of lists and dicts. -/
def pyStr : JValue → String
  | .jNull => "None"
  | .jBool b => if b then "True" else "False"
  | .jNum n => toString n
  | .jStr s => s
  | .jArr xs => "[" ++ pyStrList xs ++ "]"
  | .jObj fs => "\x7b" ++ pyStrObj fs ++ "\x7d"

/-- Python `repr()` of a value (strings gain quotes, used inside containers). -/
def pyRepr : JValue → String
  | .jStr s => "\x27" ++ s ++ "\x27"
  | .jNull => "None"
  | .jBool b => if b then "True" else "False"
  | .jNum n => toString n
  | .jArr xs => "[" ++ pyStrList xs ++ "]"
  | .jObj fs => "\x7b" ++ pyStrObj fs ++ "\x7d"

/-- Comma-separated `repr`s of list elements. -/
def pyStrList : List JValue → String
  | [] => ""
  | [x] => pyRepr x
  | x :: y :: xs => pyRepr x ++ ", " ++ pyStrList (y :: xs)

/-- Comma-separated `repr`s of dict entries. -/
def pyStrObj : List (String × JValue) → String
  | [] => ""
  | [(k, v)] => "\x27" ++ k ++ "\x27: " ++ pyRepr v
  | (k, v) :: e :: fs => "\x27" ++ k ++ "\x27: " ++ pyRepr v ++ ", " ++ pyStrObj (e :: fs)

end

/-- The exceptions `main` can catch: `EndpointError` and
`HomeworkStatuseError` from the exceptions module of the repository, and the
built-in `ValueError`, `TypeError` and `KeyError`. -/
inductive PyError where
  | endpointError : PyError
  | valueError : PyError
  | typeError : PyError
  | keyError : PyError
  | homeworkStatuseError : PyError
  deriving DecidableEq, Repr

/-- An HTTP answer as seen through `requests`: a status code and, when the
body is valid JSON, its parsed value (`none` models a body `.json()`
rejects with `ValueError`). -/
structure HttpResponse where
  status_code : Nat
  json : Option JValue

def RETRY_TIME : Nat := 600

def KEY_HOMEWORKS : String := "homeworks"

def KEY_HOMEWORK_NAME : String := "homework_name"

def KEY_STATUS : String := "status"

def KEY_CURRENT_DATE : String := "current_date"

/-- The `HOMEWORK_STATUSES` dict: recognized status values and their
verdict texts. -/
def HOMEWORK_STATUSES : List (String × String) :=
  [("approved", "Работа проверена: ревьюеру всё понравилось. Ура!"),
   ("reviewing", "Работа взята на проверку ревьюером."),
   ("rejected", "Работа проверена: у ревьюера есть замечания.")]

/-- The `from_date` query parameter `get_api_answer` sends:
`timestamp = current_timestamp or int(time.time())`, so a falsy
`current_timestamp` is replaced by the current wall-clock time. -/
def requestFromDate (current_timestamp : JValue) (now : Int) : JValue :=
  if pyTruthy current_timestamp then current_timestamp else .jNum now

/-- `get_api_answer`: issue the GET (the environment `http` maps the
`from_date` parameter to the `HttpResponse` received); raise
`EndpointError` on a non-200 status, `ValueError` when the body is not
valid JSON, otherwise return the parsed body. -/
def get_api_answer (current_timestamp : JValue) (now : Int)
    (http : JValue → HttpResponse) : Except PyError JValue :=
  let response := http (requestFromDate current_timestamp now)
  if response.status_code ≠ 200 then .error .endpointError
  else
    match response.json with
    | some j => .ok j
    | none => .error .valueError

/-- `check_response`: `TypeError` unless the response is a dict,
`KeyError` when the `homeworks` key is absent, `TypeError` unless its
value is a list; otherwise return the list. -/
def check_response (response : JValue) : Except PyError (List JValue) :=
  match response with
  | .jObj fields =>
    match fields.lookup KEY_HOMEWORKS with
    | none => .error .keyError
    | some homeworks =>
      match homeworks with
      | .jArr l => .ok l
      | _ => .error .typeError
  | _ => .error .typeError

/-- `parse_status`: `KeyError` when `homework_name` or `status` is absent,
then the membership test of the status value in `HOMEWORK_STATUSES`: a
hashable value (`None`, booleans, numbers, strings) that is not a key
raises `HomeworkStatuseError`, while an unhashable value (a list or a
dict) makes the Python `in` test itself raise `TypeError` (unhashable
type); otherwise the formatted message. A record that is not a dict fails
with an exception in Python (`in` applied to a non-container); it is
modelled as `TypeError`. -/
def parse_status (homework : JValue) : Except PyError String :=
  match homework with
  | .jObj fields =>
    if (fields.lookup KEY_HOMEWORK_NAME).isNone then .error .keyError
    else if (fields.lookup KEY_STATUS).isNone then .error .keyError
    else
      let homework_name := (fields.lookup KEY_HOMEWORK_NAME).getD .jNull
      match (fields.lookup KEY_STATUS).getD .jNull with
      | .jStr s =>
        match HOMEWORK_STATUSES.lookup s with
        | some verdict =>
          .ok ("Изменился статус проверки работы \"" ++ pyStr homework_name
                ++ "\". " ++ verdict)
        | none => .error .homeworkStatuseError
      | .jNull => .error .homeworkStatuseError
      | .jBool _ => .error .homeworkStatuseError
      | .jNum _ => .error .homeworkStatuseError
      | .jArr _ => .error .typeError
      | .jObj _ => .error .typeError
  | _ => .error .typeError

/-- `check_tokens`, with its critical log made explicit: the boolean result
and the critical message logged when a variable is missing. -/
def check_tokens (practicum_token telegram_token telegram_chat_id : Option String) :
    Bool × Option String :=
  match practicum_token with
  | none => (false,
      some ("Отсутствует обязательная переменная окружения: \"PRACTICUM_TOKEN\".\n"
            ++ "Программа принудительно остановлена."))
  | some _ =>
    match telegram_token with
    | none => (false,
        some ("Отсутствует обязательная переменная окружения: \"TELEGRAM_TOKEN\".\n"
              ++ "Программа принудительно остановлена."))
    | some _ =>
      match telegram_chat_id with
      | none => (false,
          some ("Отсутствует обязательная переменная окружения: \"TELEGRAM_CHAT_ID\".\n"
                ++ "Программа принудительно остановлена."))
      | some _ => (true, none)

/-- What `main` does before its loop: exit or enter the loop. -/
inductive StartupResult where
  | exited : Nat → StartupResult
  | enteredLoop : StartupResult
  deriving DecidableEq, Repr

/-- The startup of `main`: `if not check_tokens(): exit()`. A bare Python
`exit()` terminates the process with status 0. -/
def mainStartup (practicum_token telegram_token telegram_chat_id : Option String) :
    StartupResult :=
  if (check_tokens practicum_token telegram_token telegram_chat_id).1 then
    .enteredLoop
  else .exited 0

/-- The loop-local state of `main`: `current_timestamp` (a dynamic value —
the code stores the raw current_date value into it without a type
check) and `LAST_ERROR_MESSAGE`. -/
structure PollState where
  current_timestamp : JValue
  last_error_message : String

/-- The external world of one loop iteration: the wall clock, and the HTTP
answer the endpoint returns for a given `from_date` parameter. -/
structure IterEnv where
  now : Int
  http : JValue → HttpResponse

/-- The `for homework in homeworks` body: messages sent so far (each
`send_message` precedes the next `parse_status`) and the first error, if
any, which aborts the rest of the list. -/
def processHomeworks : List JValue → List String × Option PyError
  | [] => ([], none)
  | hw :: rest =>
    match parse_status hw with
    | .error e => ([], some e)
    | .ok m =>
      let (ms, err) := processHomeworks rest
      (m :: ms, err)

/-- Dict lookup on a dynamic value (`response.get(key)` on a dict). -/
def jvalGet (v : JValue) (k : String) : Option JValue :=
  match v with
  | .jObj fields => fields.lookup k
  | _ => none

/-- The `try` block of one loop iteration: the messages sent inside it, and
either the value `current_timestamp` is advanced to (the
current_date of the response) or the exception that escapes to except. -/
def tryBody (st : PollState) (env : IterEnv) : List String × Except PyError JValue :=
  match get_api_answer st.current_timestamp env.now env.http with
  | .error e => ([], .error e)
  | .ok response =>
    match check_response response with
    | .error e => ([], .error e)
    | .ok homeworks =>
      let (sent, herr) := processHomeworks homeworks
      match herr with
      | some e => (sent, .error e)
      | none =>
        match jvalGet response KEY_CURRENT_DATE with
        | none => (sent, .error .keyError)
        | some d => (sent, .ok d)

/-- Modelled from the spec: the exceptions module of the repository is not
under src. The error taxonomy of the spec gives its classes (`EndpointError`,
`HomeworkStatuseError`) no payload, and every exception the loop catches is
raised bare, so Python `str(error)` is the empty string for each of them. -/
def errStr (_e : PyError) : String := ""

/-- The message the except branch builds: the fixed failure text followed
by the Python str of the error. -/
def errMessage (e : PyError) : String :=
  "Сбой в работе программы: " ++ errStr e

/-- One full iteration of `while True`: run the `try` block; on success
advance `current_timestamp`; on a caught error send the error message only
when it differs from `LAST_ERROR_MESSAGE`, updating the latter. Returns the
new state and every message sent during the iteration, in order. -/
def step (st : PollState) (env : IterEnv) : PollState × List String :=
  let (sentHW, result) := tryBody st env
  match result with
  | .ok newTs => ({ st with current_timestamp := newTs }, sentHW)
  | .error e =>
    let message := errMessage e
    if message ≠ st.last_error_message then
      ({ st with last_error_message := message }, sentHW ++ [message])
    else
      (st, sentHW)

/-- The state after one iteration. -/
def stepState (st : PollState) (env : IterEnv) : PollState := (step st env).1

/-- The messages sent during one iteration. -/
def stepSent (st : PollState) (env : IterEnv) : List String := (step st env).2

/-- The exception caught by `except` in an iteration, if the iteration
failed. -/
def iterFailure (st : PollState) (env : IterEnv) : Option PyError :=
  match (tryBody st env).2 with
  | .error e => some e
  | .ok _ => none

/-- The state after running a whole list of iterations in order. -/
def runState : PollState → List IterEnv → PollState
  | st, [] => st
  | st, env :: rest => runState (stepState st env) rest

/-- Every iteration of the list, run in order from the given state,
completes without a caught error. -/
def allSucceed : PollState → List IterEnv → Prop
  | _, [] => True
  | st, env :: rest => iterFailure st env = none ∧ allSucceed (stepState st env) rest

/- Basic string lemmas used to express substring containment. -/

theorem strAppendAssoc (a b c : String) : a ++ b ++ c = a ++ (b ++ c) := by
  cases a with
  | mk xs =>
    cases b with
    | mk ys =>
      cases c with
      | mk zs =>
        show String.mk (xs ++ ys ++ zs) = String.mk (xs ++ (ys ++ zs))
        rw [List.append_assoc]

theorem strAppendEmpty (a : String) : a ++ "" = a := by
  cases a with
  | mk xs =>
    show String.mk (xs ++ []) = String.mk xs
    rw [List.append_nil]

/- Helper lemmas about one loop iteration. -/

/-- After an iteration whose try block raised, `LAST_ERROR_MESSAGE` holds
the message of that error. -/
theorem last_error_after_failure (st : PollState) (env : IterEnv) (e : PyError)
    (h : iterFailure st env = some e) :
    (stepState st env).last_error_message = errMessage e := by
  unfold iterFailure at h
  unfold stepState step
  cases ht : tryBody st env with
  | mk sent res =>
    rw [ht] at h
    cases res with
    | ok v => simp at h
    | error e2 =>
      simp only [Option.some.injEq] at h
      subst h
      by_cases hm : errMessage e2 = st.last_error_message
      · simp [hm]
      · simp [hm]

/-- An iteration with no caught error leaves `LAST_ERROR_MESSAGE`
untouched (the code never resets it on success). -/
theorem last_error_after_success (st : PollState) (env : IterEnv)
    (h : iterFailure st env = none) :
    (stepState st env).last_error_message = st.last_error_message := by
  unfold iterFailure at h
  unfold stepState step
  cases ht : tryBody st env with
  | mk sent res =>
    rw [ht] at h
    cases res with
    | ok v => simp
    | error e2 => simp at h

/-- A run of iterations that all succeed leaves `LAST_ERROR_MESSAGE`
untouched. -/
theorem last_error_after_successes (es : List IterEnv) :
    ∀ (st : PollState), allSucceed st es →
      (runState st es).last_error_message = st.last_error_message := by
  induction es with
  | nil => intro st _; rfl
  | cons env rest ih =>
    intro st h
    obtain ⟨h1, h2⟩ := h
    show (runState (stepState st env) rest).last_error_message = _
    rw [ih (stepState st env) h2, last_error_after_success st env h1]

/-- In a failing iteration whose message equals the stored
`LAST_ERROR_MESSAGE`, the messages sent are exactly those of the try
block: the error notification is suppressed. -/
theorem sent_when_suppressed (st : PollState) (env : IterEnv) (e : PyError)
    (h : iterFailure st env = some e)
    (hm : errMessage e = st.last_error_message) :
    stepSent st env = (tryBody st env).1 := by
  unfold iterFailure at h
  unfold stepSent step
  cases ht : tryBody st env with
  | mk sent res =>
    rw [ht] at h
    cases res with
    | ok v => simp at h
    | error e2 =>
      simp only [Option.some.injEq] at h
      subst h
      simp [hm]

/-- In a failing iteration whose message differs from the stored
`LAST_ERROR_MESSAGE`, the error notification is sent after the messages of
the try block. -/
theorem sent_when_notified (st : PollState) (env : IterEnv) (e : PyError)
    (h : iterFailure st env = some e)
    (hm : errMessage e ≠ st.last_error_message) :
    stepSent st env = (tryBody st env).1 ++ [errMessage e] := by
  unfold iterFailure at h
  unfold stepSent step
  cases ht : tryBody st env with
  | mk sent res =>
    rw [ht] at h
    cases res with
    | ok v => simp at h
    | error e2 =>
      simp only [Option.some.injEq] at h
      subst h
      simp [hm]

/-- C4: `get_api_answer` fails with `EndpointError` exactly when the HTTP
status is not 200, fails with the JSON parse error (`ValueError`) exactly
when the status is 200 but the body is not valid JSON, and otherwise
returns the parsed JSON body. -/
theorem get_api_answer_spec (ts : JValue) (now : Int) (http : JValue → HttpResponse) :
    (get_api_answer ts now http = .error .endpointError ↔
      (http (requestFromDate ts now)).status_code ≠ 200) ∧
    (get_api_answer ts now http = .error .valueError ↔
      (http (requestFromDate ts now)).status_code = 200 ∧
      (http (requestFromDate ts now)).json = none) ∧
    (∀ j : JValue, get_api_answer ts now http = .ok j ↔
      (http (requestFromDate ts now)).status_code = 200 ∧
      (http (requestFromDate ts now)).json = some j) := by
  unfold get_api_answer
  by_cases h : (http (requestFromDate ts now)).status_code = 200
  · cases hj : (http (requestFromDate ts now)).json with
    | none => simp [h, hj]
    | some j => simp [h, hj]
  · simp [h]

/-- C4 witness: a 404 answer makes `get_api_answer` fail with
`EndpointError`. -/
theorem get_api_answer_spec_witness :
    get_api_answer (.jNum 1) 0 (fun _ => ⟨404, none⟩) = .error .endpointError :=
  ((get_api_answer_spec (.jNum 1) 0 (fun _ => ⟨404, none⟩)).1).mpr (by decide)

/-- C9 as stated: the `from_date` query parameter always equals the
timestamp argument. -/
def fromDateAsClaimed : Prop :=
  ∀ (ts : JValue) (now : Int), requestFromDate ts now = ts

/-- C9 counterexample: with timestamp argument 0 (falsy in Python) and
wall-clock time 999, the request is issued with `from_date` 999, not 0. -/
theorem requestFromDate_claim_false : ¬ fromDateAsClaimed := by
  intro h
  have h0 := h (.jNum 0) 999
  rw [show requestFromDate (.jNum 0) 999 = .jNum 999 from rfl] at h0
  injection h0 with h1
  exact absurd h1 (by decide)

/-- C9 amended: the GET is issued with `from_date` equal to the timestamp
argument whenever that argument is truthy; a falsy argument (such as 0) is
replaced by the current wall-clock time. -/
theorem requestFromDate_spec (ts : JValue) (now : Int) :
    (pyTruthy ts = true → requestFromDate ts now = ts) ∧
    (pyTruthy ts = false → requestFromDate ts now = .jNum now) := by
  constructor <;> intro h <;> simp [requestFromDate, h]

/-- C9 witness: a truthy timestamp argument is passed through as
`from_date` unchanged. -/
theorem requestFromDate_spec_witness :
    pyTruthy (.jNum 1646082000) = true ∧
    requestFromDate (.jNum 1646082000) 7 = .jNum 1646082000 :=
  ⟨rfl, (requestFromDate_spec (.jNum 1646082000) 7).1 rfl⟩

/-- C6: when any of the three credentials is absent, `main` logs a
critical message and exits with status 0 before the loop; when all three
are present, the loop is entered and nothing critical is logged. -/
theorem check_tokens_spec (p t c : Option String) :
    ((p = none ∨ t = none ∨ c = none) →
      mainStartup p t c = .exited 0 ∧ (check_tokens p t c).2.isSome = true) ∧
    ((p ≠ none ∧ t ≠ none ∧ c ≠ none) →
      mainStartup p t c = .enteredLoop ∧ (check_tokens p t c).2 = none) := by
  cases p <;> cases t <;> cases c <;> simp [mainStartup, check_tokens]

/-- C6 witness: a missing API token makes startup exit with status 0 and
log a critical message; with all three credentials, the loop is entered. -/
theorem check_tokens_spec_witness :
    (((none : Option String) = none ∨ (some "t") = none ∨ (some "c") = none) ∧
      mainStartup none (some "t") (some "c") = .exited 0 ∧
      (check_tokens none (some "t") (some "c")).2.isSome = true) ∧
    (((some "p") ≠ (none : Option String) ∧ (some "t") ≠ (none : Option String) ∧
        (some "c") ≠ (none : Option String)) ∧
      mainStartup (some "p") (some "t") (some "c") = .enteredLoop ∧
      (check_tokens (some "p") (some "t") (some "c")).2 = none) :=
  ⟨⟨Or.inl rfl, (check_tokens_spec none (some "t") (some "c")).1 (Or.inl rfl)⟩,
   ⟨⟨by simp, by simp, by simp⟩,
    (check_tokens_spec (some "p") (some "t") (some "c")).2
      ⟨by simp, by simp, by simp⟩⟩⟩

/-- C2 as stated: `check_response` succeeds exactly when the response is a
dict that has a `homeworks` key, has a `current_date` key, and whose
`homeworks` value is a list. -/
def checkResponseAsClaimed : Prop :=
  ∀ (r : JValue),
    (∃ l, check_response r = .ok l) ↔
      ∃ fields, r = .jObj fields ∧
        (fields.lookup KEY_HOMEWORKS).isSome = true ∧
        (fields.lookup KEY_CURRENT_DATE).isSome = true ∧
        ∃ l, fields.lookup KEY_HOMEWORKS = some (.jArr l)

/-- C2 counterexample: on a dict with an empty `homeworks` list and no
`current_date` key, `check_response` succeeds, though the claim requires
it to fail. -/
theorem check_response_claim_false : ¬ checkResponseAsClaimed := by
  intro h
  have h0 := (h (.jObj [(KEY_HOMEWORKS, .jArr [])])).mp ⟨[], rfl⟩
  obtain ⟨fields, hf, _, hcd, _⟩ := h0
  injection hf with hf
  rw [← hf] at hcd
  exact absurd hcd (by decide)

/-- C2 amended: `check_response` fails exactly when the response is not a
dict, lacks a `homeworks` key, or its `homeworks` value is not a list —
presence of `current_date` is not part of it; that key is checked
separately in the loop body, which raises a `KeyError` (after the
per-homework notifications) when it is absent. -/
theorem check_response_spec :
    (∀ (r : JValue) (l : List JValue),
      check_response r = .ok l ↔
        ∃ fields, r = .jObj fields ∧ fields.lookup KEY_HOMEWORKS = some (.jArr l)) ∧
    (∀ (st : PollState) (env : IterEnv) (fields : List (String × JValue))
        (hws : List JValue) (sent : List String),
      env.http (requestFromDate st.current_timestamp env.now) =
        ⟨200, some (.jObj fields)⟩ →
      fields.lookup KEY_HOMEWORKS = some (.jArr hws) →
      processHomeworks hws = (sent, none) →
      fields.lookup KEY_CURRENT_DATE = none →
      tryBody st env = (sent, .error .keyError)) := by
  constructor
  · intro r l
    constructor
    · intro h
      cases r with
      | jObj fields =>
        cases hk : fields.lookup KEY_HOMEWORKS with
        | none => simp [check_response, hk] at h
        | some v =>
          cases v with
          | jArr xs =>
            simp [check_response, hk] at h
            exact ⟨fields, rfl, by rw [hk, h]⟩
          | jNull => simp [check_response, hk] at h
          | jBool b => simp [check_response, hk] at h
          | jNum n => simp [check_response, hk] at h
          | jStr s => simp [check_response, hk] at h
          | jObj fs => simp [check_response, hk] at h
      | jNull => simp [check_response] at h
      | jBool b => simp [check_response] at h
      | jNum n => simp [check_response] at h
      | jStr s => simp [check_response] at h
      | jArr xs => simp [check_response] at h
    · rintro ⟨fields, rfl, hk⟩
      simp [check_response, hk]
  · intro st env fields hws sent hhttp hk hph hcd
    unfold tryBody get_api_answer
    rw [hhttp]
    simp only [ne_eq, not_true_eq_false, if_false, ite_false, reduceIte]
    simp [check_response, hk, hph, jvalGet, hcd]

/-- C2 witness: a response with an empty homework list and no
`current_date` key passes `check_response`, and the loop iteration on it
sends nothing and ends in a caught `KeyError`. -/
theorem check_response_spec_witness :
    (IterEnv.mk 0 (fun _ => ⟨200, some (.jObj [(KEY_HOMEWORKS, .jArr [])])⟩)).http
        (requestFromDate (PollState.mk (.jNum 100) "").current_timestamp
          (IterEnv.mk 0 (fun _ => ⟨200, some (.jObj [(KEY_HOMEWORKS, .jArr [])])⟩)).now) =
      ⟨200, some (.jObj [(KEY_HOMEWORKS, .jArr [])])⟩ ∧
    tryBody (PollState.mk (.jNum 100) "")
        (IterEnv.mk 0 (fun _ => ⟨200, some (.jObj [(KEY_HOMEWORKS, .jArr [])])⟩)) =
      ([], .error .keyError) :=
  ⟨rfl, check_response_spec.2 (PollState.mk (.jNum 100) "")
    (IterEnv.mk 0 (fun _ => ⟨200, some (.jObj [(KEY_HOMEWORKS, .jArr [])])⟩))
    [(KEY_HOMEWORKS, .jArr [])] [] [] rfl rfl rfl rfl⟩

/-- C5 as stated: any record whose `status` value is present but not
recognized fails with the unknown-status error. -/
def parseStatusAsClaimed : Prop :=
  ∀ (fields : List (String × JValue)) (s : String),
    fields.lookup KEY_STATUS = some (.jStr s) →
    HOMEWORK_STATUSES.lookup s = none →
    parse_status (.jObj fields) = .error .homeworkStatuseError

/-- C5 counterexample: a record with `status` present but unrecognized and
`homework_name` absent fails with `KeyError`, not with the unknown-status
error — the key checks run first. -/
theorem parse_status_claim_false : ¬ parseStatusAsClaimed := by
  intro h
  have h0 := h [(KEY_STATUS, .jStr "unknown_value")] "unknown_value" rfl rfl
  have h1 : parse_status (.jObj [(KEY_STATUS, .jStr "unknown_value")]) =
      .error .keyError := rfl
  rw [h0] at h1
  simp at h1

/-- Whether a status value is a key of `HOMEWORK_STATUSES` (only strings
can be). -/
def statusRecognized (v : JValue) : Bool :=
  match v with
  | .jStr s => (HOMEWORK_STATUSES.lookup s).isSome
  | _ => false

/-- Whether a status value is hashable in Python: lists and dicts are not,
so a membership test on them raises `TypeError`. -/
def statusHashable (v : JValue) : Bool :=
  match v with
  | .jArr _ => false
  | .jObj _ => false
  | _ => true

/-- C5 amended: `parse_status` fails with `KeyError` whenever the
`homework_name` key or the `status` key is absent (those checks run
first); it fails with the unknown-status error exactly when both keys are
present and the status value is hashable but not a recognized verdict;
and a present but unhashable status value (a list or a dict) raises
`TypeError` from the membership test instead. -/
theorem parse_status_spec (fields : List (String × JValue)) :
    ((fields.lookup KEY_HOMEWORK_NAME = none ∨ fields.lookup KEY_STATUS = none) →
      parse_status (.jObj fields) = .error .keyError) ∧
    (parse_status (.jObj fields) = .error .homeworkStatuseError ↔
      ∃ sv, (fields.lookup KEY_HOMEWORK_NAME).isSome = true ∧
        fields.lookup KEY_STATUS = some sv ∧
        statusHashable sv = true ∧ statusRecognized sv = false) ∧
    (∀ sv, (fields.lookup KEY_HOMEWORK_NAME).isSome = true →
      fields.lookup KEY_STATUS = some sv →
      statusHashable sv = false →
      parse_status (.jObj fields) = .error .typeError) := by
  refine ⟨?_, ?_, ?_⟩
  · rintro (h | h)
    · simp [parse_status, h]
    · cases hn : fields.lookup KEY_HOMEWORK_NAME <;>
        simp [parse_status, hn, h]
  · cases hn : fields.lookup KEY_HOMEWORK_NAME with
    | none => simp [parse_status, hn]
    | some nv =>
      cases hs : fields.lookup KEY_STATUS with
      | none => simp [parse_status, hn, hs]
      | some sv =>
        cases sv with
        | jStr s =>
          cases hl : HOMEWORK_STATUSES.lookup s with
          | none =>
            simp [parse_status, hn, hs, hl, statusHashable, statusRecognized]
          | some v =>
            simp [parse_status, hn, hs, hl, statusHashable, statusRecognized]
        | jNull => simp [parse_status, hn, hs, statusHashable, statusRecognized]
        | jBool b => simp [parse_status, hn, hs, statusHashable, statusRecognized]
        | jNum n => simp [parse_status, hn, hs, statusHashable, statusRecognized]
        | jArr xs => simp [parse_status, hn, hs, statusHashable, statusRecognized]
        | jObj fs => simp [parse_status, hn, hs, statusHashable, statusRecognized]
  · intro sv hn hs hun
    cases hn2 : fields.lookup KEY_HOMEWORK_NAME with
    | none => rw [hn2] at hn; simp at hn
    | some nv =>
      cases sv with
      | jArr xs => simp [parse_status, hn2, hs]
      | jObj fs => simp [parse_status, hn2, hs]
      | jNull => simp [statusHashable] at hun
      | jBool b => simp [statusHashable] at hun
      | jNum n => simp [statusHashable] at hun
      | jStr s => simp [statusHashable] at hun

/-- C5 witness: a record with both keys and an unrecognized hashable
status string fails with the unknown-status error, while the same record
with an unhashable (list) status value fails with `TypeError`. -/
theorem parse_status_spec_witness :
    parse_status (.jObj [(KEY_HOMEWORK_NAME, JValue.jStr "hw"),
        (KEY_STATUS, JValue.jStr "weird")]) = .error .homeworkStatuseError ∧
    ((([(KEY_HOMEWORK_NAME, JValue.jStr "hw"),
          (KEY_STATUS, JValue.jArr [])].lookup KEY_HOMEWORK_NAME).isSome = true ∧
      [(KEY_HOMEWORK_NAME, JValue.jStr "hw"),
          (KEY_STATUS, JValue.jArr [])].lookup KEY_STATUS = some (.jArr []) ∧
      statusHashable (.jArr []) = false) ∧
      parse_status (.jObj [(KEY_HOMEWORK_NAME, JValue.jStr "hw"),
          (KEY_STATUS, JValue.jArr [])]) = .error .typeError) :=
  ⟨(parse_status_spec [(KEY_HOMEWORK_NAME, JValue.jStr "hw"),
      (KEY_STATUS, JValue.jStr "weird")]).2.1.mpr
      ⟨.jStr "weird", rfl, rfl, rfl, rfl⟩,
   ⟨rfl, rfl, rfl⟩,
   (parse_status_spec [(KEY_HOMEWORK_NAME, JValue.jStr "hw"),
      (KEY_STATUS, JValue.jArr [])]).2.2 (.jArr []) rfl rfl rfl⟩

/-- C7: on a record with both keys present and status `approved`, the
message returned by `parse_status` contains the homework name as a
substring and contains the fixed verdict text of the approved status. -/
theorem parse_status_approved (fields : List (String × JValue)) (name : String)
    (hn : fields.lookup KEY_HOMEWORK_NAME = some (.jStr name))
    (hs : fields.lookup KEY_STATUS = some (.jStr "approved")) :
    ∃ msg, parse_status (.jObj fields) = .ok msg ∧
      (∃ a b, msg = a ++ name ++ b) ∧
      (∃ v c d, HOMEWORK_STATUSES.lookup "approved" = some v ∧ msg = c ++ v ++ d) := by
  refine ⟨"Изменился статус проверки работы \"" ++ name ++ "\". "
      ++ "Работа проверена: ревьюеру всё понравилось. Ура!", ?_, ?_, ?_⟩
  · simp [parse_status, hn, hs, pyStr, HOMEWORK_STATUSES]
  · refine ⟨"Изменился статус проверки работы \"",
      "\". " ++ "Работа проверена: ревьюеру всё понравилось. Ура!", ?_⟩
    rw [strAppendAssoc, strAppendAssoc]
  · refine ⟨"Работа проверена: ревьюеру всё понравилось. Ура!",
      "Изменился статус проверки работы \"" ++ name ++ "\". ", "", rfl, ?_⟩
    rw [strAppendEmpty]

/-- C7 witness: a concrete approved record, whose message contains the
name and the approved verdict text. -/
theorem parse_status_approved_witness :
    [(KEY_HOMEWORK_NAME, JValue.jStr "hw01"), (KEY_STATUS, JValue.jStr "approved")].lookup
        KEY_HOMEWORK_NAME = some (.jStr "hw01") ∧
    [(KEY_HOMEWORK_NAME, JValue.jStr "hw01"), (KEY_STATUS, JValue.jStr "approved")].lookup
        KEY_STATUS = some (.jStr "approved") ∧
    ∃ msg, parse_status (.jObj [(KEY_HOMEWORK_NAME, JValue.jStr "hw01"),
        (KEY_STATUS, JValue.jStr "approved")]) = .ok msg ∧
      (∃ a b, msg = a ++ "hw01" ++ b) ∧
      (∃ v c d, HOMEWORK_STATUSES.lookup "approved" = some v ∧ msg = c ++ v ++ d) :=
  ⟨rfl, rfl,
   parse_status_approved [(KEY_HOMEWORK_NAME, JValue.jStr "hw01"),
      (KEY_STATUS, JValue.jStr "approved")] "hw01" rfl rfl⟩

/-- C3 as stated: across consecutive iterations the numeric timestamp
never decreases. -/
def timestampMonotoneAsClaimed : Prop :=
  ∀ (st : PollState) (env : IterEnv) (n m : Int),
    st.current_timestamp = .jNum n →
    (stepState st env).current_timestamp = .jNum m →
    n ≤ m

/-- C3 counterexample: from timestamp 100, a successful fetch whose body
is a valid response with `current_date` 0 drops the timestamp to 0 — the
code adopts whatever `current_date` the API supplies, with no
monotonicity guard. -/
theorem timestamp_monotone_false : ¬ timestampMonotoneAsClaimed := by
  intro h
  have h0 := h (PollState.mk (.jNum 100) "")
    (IterEnv.mk 0 (fun _ => ⟨200, some (.jObj
      [(KEY_HOMEWORKS, .jArr []), (KEY_CURRENT_DATE, .jNum 0)])⟩))
    100 0 rfl rfl
  omega

/-- C3 amended: after each successful iteration `current_timestamp` is set
to the API-supplied `current_date` value, whatever it is; the code does
not enforce that this value is at least the previous timestamp. -/
theorem timestamp_follows_current_date (st : PollState) (env : IterEnv)
    (resp : JValue) (hws : List JValue) (sent : List String) (d : JValue)
    (hr : env.http (requestFromDate st.current_timestamp env.now) = ⟨200, some resp⟩)
    (hc : check_response resp = .ok hws)
    (hp : processHomeworks hws = (sent, none))
    (hd : jvalGet resp KEY_CURRENT_DATE = some d) :
    (stepState st env).current_timestamp = d := by
  have ht : tryBody st env = (sent, .ok d) := by
    unfold tryBody get_api_answer
    rw [hr]
    simp [hc, hp, hd]
  unfold stepState step
  rw [ht]

/-- C3 witness: a concrete successful iteration in which the timestamp
moves from 100 down to the supplied `current_date` 0. -/
theorem timestamp_follows_current_date_witness :
    (IterEnv.mk 0 (fun _ => ⟨200, some (.jObj
        [(KEY_HOMEWORKS, .jArr []), (KEY_CURRENT_DATE, .jNum 0)])⟩)).http
      (requestFromDate (PollState.mk (.jNum 100) "").current_timestamp 0) =
        ⟨200, some (.jObj [(KEY_HOMEWORKS, .jArr []), (KEY_CURRENT_DATE, .jNum 0)])⟩ ∧
    check_response (.jObj [(KEY_HOMEWORKS, .jArr []), (KEY_CURRENT_DATE, .jNum 0)]) =
      .ok [] ∧
    jvalGet (.jObj [(KEY_HOMEWORKS, .jArr []), (KEY_CURRENT_DATE, .jNum 0)])
      KEY_CURRENT_DATE = some (.jNum 0) ∧
    (stepState (PollState.mk (.jNum 100) "")
      (IterEnv.mk 0 (fun _ => ⟨200, some (.jObj
        [(KEY_HOMEWORKS, .jArr []), (KEY_CURRENT_DATE, .jNum 0)])⟩))).current_timestamp =
      .jNum 0 :=
  ⟨rfl, rfl, rfl,
   timestamp_follows_current_date (PollState.mk (.jNum 100) "")
     (IterEnv.mk 0 (fun _ => ⟨200, some (.jObj
       [(KEY_HOMEWORKS, .jArr []), (KEY_CURRENT_DATE, .jNum 0)])⟩))
     (.jObj [(KEY_HOMEWORKS, .jArr []), (KEY_CURRENT_DATE, .jNum 0)])
     [] [] (.jNum 0) rfl rfl rfl rfl⟩

/-- C8: an iteration whose response is a dict with an empty `homeworks`
list and a `current_date` key sends no message and raises no error. -/
theorem empty_homeworks_quiet (st : PollState) (env : IterEnv)
    (fields : List (String × JValue)) (d : JValue)
    (hr : env.http (requestFromDate st.current_timestamp env.now) =
      ⟨200, some (.jObj fields)⟩)
    (hh : fields.lookup KEY_HOMEWORKS = some (.jArr []))
    (hd : fields.lookup KEY_CURRENT_DATE = some d) :
    stepSent st env = [] ∧ iterFailure st env = none := by
  have ht : tryBody st env = ([], .ok d) := by
    unfold tryBody get_api_answer
    rw [hr]
    simp [check_response, hh, processHomeworks, jvalGet, hd]
  constructor
  · unfold stepSent step
    rw [ht]
  · unfold iterFailure
    rw [ht]

/-- C8 witness: a concrete quiet iteration on an empty homework list. -/
theorem empty_homeworks_quiet_witness :
    (IterEnv.mk 5 (fun _ => ⟨200, some (.jObj
        [(KEY_HOMEWORKS, .jArr []), (KEY_CURRENT_DATE, .jNum 7)])⟩)).http
      (requestFromDate (PollState.mk (.jNum 3) "").current_timestamp 5) =
        ⟨200, some (.jObj [(KEY_HOMEWORKS, .jArr []), (KEY_CURRENT_DATE, .jNum 7)])⟩ ∧
    ([(KEY_HOMEWORKS, JValue.jArr []), (KEY_CURRENT_DATE, JValue.jNum 7)].lookup
        KEY_HOMEWORKS = some (.jArr [])) ∧
    (stepSent (PollState.mk (.jNum 3) "")
        (IterEnv.mk 5 (fun _ => ⟨200, some (.jObj
          [(KEY_HOMEWORKS, .jArr []), (KEY_CURRENT_DATE, .jNum 7)])⟩)) = [] ∧
      iterFailure (PollState.mk (.jNum 3) "")
        (IterEnv.mk 5 (fun _ => ⟨200, some (.jObj
          [(KEY_HOMEWORKS, .jArr []), (KEY_CURRENT_DATE, .jNum 7)])⟩)) = none) :=
  ⟨rfl, rfl,
   empty_homeworks_quiet (PollState.mk (.jNum 3) "")
     (IterEnv.mk 5 (fun _ => ⟨200, some (.jObj
       [(KEY_HOMEWORKS, .jArr []), (KEY_CURRENT_DATE, .jNum 7)])⟩))
     [(KEY_HOMEWORKS, .jArr []), (KEY_CURRENT_DATE, .jNum 7)] (.jNum 7)
     rfl rfl rfl⟩

/-- C10: an iteration that ends in a caught error leaves
`current_timestamp` unchanged — the assignment sits after every raise
point of the try block — so the next fetch reuses the same timestamp. -/
theorem caught_error_preserves_timestamp (st : PollState) (env : IterEnv) (e : PyError)
    (h : iterFailure st env = some e) :
    (stepState st env).current_timestamp = st.current_timestamp := by
  unfold iterFailure at h
  unfold stepState step
  cases ht : tryBody st env with
  | mk sent res =>
    rw [ht] at h
    cases res with
    | ok v => simp at h
    | error e2 =>
      by_cases hm : errMessage e2 = st.last_error_message
      · simp [hm]
      · simp [hm]

/-- C10 witness: an iteration that notifies about one homework, then
fails on the missing `current_date` key, keeps timestamp 100 — even
though a notification was already sent. -/
theorem caught_error_preserves_timestamp_witness :
    iterFailure (PollState.mk (.jNum 100) "")
        (IterEnv.mk 0 (fun _ => ⟨200, some (.jObj [(KEY_HOMEWORKS, .jArr
          [.jObj [(KEY_HOMEWORK_NAME, .jStr "hw"), (KEY_STATUS, .jStr "approved")]])])⟩)) =
      some .keyError ∧
    (stepSent (PollState.mk (.jNum 100) "")
        (IterEnv.mk 0 (fun _ => ⟨200, some (.jObj [(KEY_HOMEWORKS, .jArr
          [.jObj [(KEY_HOMEWORK_NAME, .jStr "hw"), (KEY_STATUS, .jStr "approved")]])])⟩))).length =
      2 ∧
    (stepState (PollState.mk (.jNum 100) "")
        (IterEnv.mk 0 (fun _ => ⟨200, some (.jObj [(KEY_HOMEWORKS, .jArr
          [.jObj [(KEY_HOMEWORK_NAME, .jStr "hw"), (KEY_STATUS, .jStr "approved")]])])⟩))).current_timestamp =
      (PollState.mk (.jNum 100) "").current_timestamp :=
  ⟨rfl, rfl,
   caught_error_preserves_timestamp (PollState.mk (.jNum 100) "")
     (IterEnv.mk 0 (fun _ => ⟨200, some (.jObj [(KEY_HOMEWORKS, .jArr
       [.jObj [(KEY_HOMEWORK_NAME, .jStr "hw"), (KEY_STATUS, .jStr "approved")]])])⟩))
     .keyError rfl⟩

/-- C1: in any execution, when an iteration fails with the same error
message as the previous failing iteration (any iterations in between all
succeeding), the error notification is suppressed: the later iteration
sends only its try-block messages. After a failing iteration the stored
`LAST_ERROR_MESSAGE` is exactly its message — the comparison is against
the previous failing iteration — and the first occurrence of a message
that differs from the stored one does notify. -/
theorem error_dedup (st : PollState) (e1 : IterEnv) (es : List IterEnv) (e2 : IterEnv)
    (err1 err2 : PyError)
    (h1 : iterFailure st e1 = some err1)
    (hmid : allSucceed (stepState st e1) es)
    (h2 : iterFailure (runState (stepState st e1) es) e2 = some err2)
    (heq : errMessage err2 = errMessage err1) :
    stepSent (runState (stepState st e1) es) e2 =
      (tryBody (runState (stepState st e1) es) e2).1 ∧
    (runState (stepState st e1) es).last_error_message = errMessage err1 ∧
    (st.last_error_message ≠ errMessage err1 →
      errMessage err1 ∈ stepSent st e1) := by
  have hrun : (runState (stepState st e1) es).last_error_message = errMessage err1 := by
    rw [last_error_after_successes es (stepState st e1) hmid,
      last_error_after_failure st e1 err1 h1]
  refine ⟨?_, hrun, ?_⟩
  · exact sent_when_suppressed _ e2 err2 h2 (by rw [heq, hrun])
  · intro hne
    rw [sent_when_notified st e1 err1 h1 (fun hcontra => hne hcontra.symm)]
    simp

/-- C1 witness: two consecutive failing fetches (HTTP 500); the first,
from the initial empty `LAST_ERROR_MESSAGE`, does notify, and the second
sends nothing. -/
theorem error_dedup_witness :
    iterFailure (PollState.mk (.jNum 100) "")
        (IterEnv.mk 0 (fun _ => ⟨500, none⟩)) = some .endpointError ∧
    allSucceed (stepState (PollState.mk (.jNum 100) "")
        (IterEnv.mk 0 (fun _ => ⟨500, none⟩))) [] ∧
    iterFailure (runState (stepState (PollState.mk (.jNum 100) "")
        (IterEnv.mk 0 (fun _ => ⟨500, none⟩))) [])
        (IterEnv.mk 0 (fun _ => ⟨500, none⟩)) = some .endpointError ∧
    (stepSent (runState (stepState (PollState.mk (.jNum 100) "")
        (IterEnv.mk 0 (fun _ => ⟨500, none⟩))) [])
        (IterEnv.mk 0 (fun _ => ⟨500, none⟩)) =
      (tryBody (runState (stepState (PollState.mk (.jNum 100) "")
        (IterEnv.mk 0 (fun _ => ⟨500, none⟩))) [])
        (IterEnv.mk 0 (fun _ => ⟨500, none⟩))).1 ∧
    (runState (stepState (PollState.mk (.jNum 100) "")
        (IterEnv.mk 0 (fun _ => ⟨500, none⟩))) []).last_error_message =
      errMessage .endpointError ∧
    ((PollState.mk (.jNum 100) "").last_error_message ≠ errMessage .endpointError →
      errMessage .endpointError ∈ stepSent (PollState.mk (.jNum 100) "")
        (IterEnv.mk 0 (fun _ => ⟨500, none⟩)))) :=
  ⟨rfl, trivial, rfl,
   error_dedup (PollState.mk (.jNum 100) "") (IterEnv.mk 0 (fun _ => ⟨500, none⟩))
     [] (IterEnv.mk 0 (fun _ => ⟨500, none⟩)) .endpointError .endpointError
     rfl trivial rfl rfl⟩

end HomeworkBot
